import Mathlib

/-!
# zenoh-wasm boundary glue

A shallow embedding of `src/zenoh-wasm/src/zenoh.cpp`, the C++ layer that exposes
zenoh-pico to a JavaScript host through integer handles.

* Memory is a map from 32-bit addresses (natural numbers) to typed storage cells.  A handle is a
  pointer cast to `int`; dereferencing a null pointer, unallocated storage or
  storage of another type is undefined behaviour (`Outcome.ub`).
* zenoh-pico and the host runtime are not part of the file.  Every call into them
  is appended to `World.trace` with its arguments and its result; the results come
  from the fields of `Native`, which may depend on the whole current world.
* `exit` ends the run with `Outcome.exit`.
-/

namespace ZenohWasm

/-! ## Values -/

/-- Cast of a 32-bit pointer to `int`: `(int)p`. -/
def ptrToInt (p : Nat) : Int :=
  if p % 2 ^ 32 < 2 ^ 31 then ((p % 2 ^ 32 : Nat) : Int)
  else ((p % 2 ^ 32 : Nat) : Int) - 2 ^ 32

/-- Cast of an `int` to a 32-bit pointer: `reinterpret_cast<T *>(i)`. -/
def intToPtr (i : Int) : Nat := (i % 2 ^ 32).toNat

/-- Value of an `int8_t`: the status type of the zenoh-pico calls. -/
def wrapInt8 (x : Int) : Int := (x + 128) % 256 - 128

/-- A `std::string`: a sequence of bytes (embind passes JS strings this way). -/
structure StdString where
  bytes : List Nat
deriving DecidableEq, Repr

/-- The buffer behind `std::string::data()`; it is never the null pointer. -/
def StdString.data (s : StdString) : Option (List Nat) := some s.bytes

/-- Number of bytes, `std::string::length()`. -/
def StdString.length (s : StdString) : Nat := s.bytes.length

/-- The C string that starts at a buffer: the bytes before the first NUL. -/
def cstr (buf : List Nat) : List Nat := buf.takeWhile (fun b => b != 0)

/-- Contents of a zenoh-pico configuration: a table from integer keys to strings. -/
abbrev Config := List (Nat × List Nat)

/-- A zenoh-pico session object. -/
abbrev Session := Nat

/-- A zenoh-pico subscriber object. -/
abbrev Subscriber := Nat

/-- An `emscripten::val`: a reference to a JavaScript value. -/
abbrev Val := Nat

/-- A key expression, `z_keyexpr_t`. -/
structure KeyExpr where
  id : Nat
  suffix : List Nat
deriving DecidableEq, Repr

/-- A received sample, `z_sample_t`. -/
structure z_sample_t where
  keyexpr : KeyExpr
  payload : List Nat
deriving DecidableEq, Repr

/-- The encoding tags the file refers to. -/
inductive z_encoding_prefix_t
  | Z_ENCODING_PREFIX_EMPTY
  | Z_ENCODING_PREFIX_TEXT_PLAIN
  | Z_ENCODING_PREFIX_OTHER (n : Nat)
deriving DecidableEq, Repr

/-- An encoding, `z_encoding_t`: a tag and an optional suffix string. -/
structure z_encoding_t where
  pfx : z_encoding_prefix_t
  suffix : Option (List Nat)
deriving DecidableEq, Repr

/-- The constructor `z_encoding(prefix, suffix)`. -/
def z_encoding (p : z_encoding_prefix_t) (suffix : Option (List Nat)) : z_encoding_t :=
  ⟨p, suffix⟩

/-- Options of a publish, `z_put_options_t`. -/
structure z_put_options_t where
  encoding : z_encoding_t
  congestion_control : Nat
  priority : Nat
deriving DecidableEq, Repr

/-- The functions of the file that are installed as sample handlers. -/
inductive SampleHandler
  | wrapping_sub_callback
deriving DecidableEq, Repr

/-- The functions of the file that are installed as closure droppers. -/
inductive ClosureDropper
  | remove_js_callback
deriving DecidableEq, Repr

/-- A sample closure, `z_owned_closure_sample_t`, as built by `z_closure`. -/
structure z_owned_closure_sample_t where
  call : SampleHandler
  drop : ClosureDropper
  context : Nat
deriving DecidableEq, Repr

/-- What the host callback is applied to. -/
inductive HostArg
  | int (i : Int)
  | sample (s : z_sample_t)
deriving DecidableEq, Repr

/-- One call that leaves the file, with its arguments and its result. -/
inductive Event
  | zp_config_insert (cfg : Option Config) (key : Nat) (value : List Nat)
  | z_open (cfg : Option Config) (res : Option Session)
  | zp_start_read_task (s : Option Session) (status : Int)
  | zp_start_lease_task (s : Option Session) (status : Int)
  | z_declare_keyexpr (s : Option Session) (key : KeyExpr) (res : Option KeyExpr)
  | z_put (s : Option Session) (ke : Option KeyExpr) (payload : Option (List Nat))
      (len : Nat) (opts : z_put_options_t) (status : Int)
  | z_close (s : Option Session)
  | z_declare_subscriber (s : Option Session) (ke : Option KeyExpr)
      (closure : z_owned_closure_sample_t) (res : Option Subscriber)
  | host_call_await (cb : Val) (arg : HostArg)
deriving DecidableEq, Repr

/-- The contents of one block of storage.  An owned zenoh-pico value is `none`
when its `_value` pointer is null (never set, rejected, or moved out). -/
inductive Cell
  | unalloc
  | raw
  | config (v : Option Config)
  | session (v : Option Session)
  | keyexpr (v : Option KeyExpr)
  | val (v : Val)
deriving DecidableEq, Repr

/-! ## The world -/

/-- Memory, the calls made so far, and what was printed. -/
structure World where
  heap : Nat → Cell
  trace : List Event
  out : List String

/-- The result of running one function of the file. -/
inductive Outcome (α : Type)
  | ret (a : α) (w : World)
  | exit (status : Int) (w : World)
  | ub

/-- Read through a pointer. -/
def World.load (w : World) (p : Nat) : Option Cell :=
  if p = 0 then none
  else
    match w.heap p with
    | Cell.unalloc => none
    | c => some c

/-- Overwrite the block at an address. -/
def World.set (w : World) (p : Nat) (c : Cell) : World :=
  { w with heap := fun a => if a = p then c else w.heap a }

/-- Write through a pointer. -/
def World.store (w : World) (p : Nat) (c : Cell) : Option World :=
  match w.load p with
  | none => none
  | some _ => some (w.set p c)

/-- Record a call that leaves the file. -/
def World.log (w : World) (e : Event) : World :=
  { w with trace := w.trace ++ [e] }

/-- Write a line of diagnostics (`printf`, `std::cout`). -/
def World.print (w : World) (s : String) : World :=
  { w with out := w.out ++ [s] }

/-- The parts of zenoh-pico, of its headers and of the runtime that the file
uses and does not define. -/
structure Native where
  malloc_addr : Nat → World → Nat
  sizeof_owned_config : Nat
  sizeof_owned_session : Nat
  sizeof_owned_keyexpr : Nat
  sizeof_val : Nat
  Z_CONFIG_CONNECT_KEY : Nat
  z_config_default : World → Option Config
  zp_config_insert : Config → Nat → List Nat → Config
  z_open : Option Config → World → Option Session
  zp_start_read_task : Option Session → World → Int
  zp_start_lease_task : Option Session → World → Int
  z_keyexpr : Option (List Nat) → KeyExpr
  z_declare_keyexpr : Option Session → KeyExpr → World → Option KeyExpr
  z_put_options_default : z_put_options_t
  z_put : Option Session → Option KeyExpr → Option (List Nat) → Nat →
    z_put_options_t → World → Int
  z_declare_subscriber : Option Session → Option KeyExpr →
    z_owned_closure_sample_t → World → Option Subscriber
  this_thread_id : String

/-- The allocator `z_malloc(size)`: the null pointer when it fails, otherwise the
address of a block that is now allocated and not yet written. -/
def z_malloc (N : Native) (size : Nat) (w : World) : Nat × World :=
  let a := N.malloc_addr size w % 2 ^ 32
  if a = 0 then (0, w) else (a, w.set a Cell.raw)

/-- The release `z_free(p)`: nothing for the null pointer. -/
def z_free (p : Nat) (w : World) : Option World :=
  if p = 0 then some w
  else
    match w.load p with
    | none => none
    | some _ => some (w.set p Cell.unalloc)

/-- The zenoh-pico call `z_open(z_move(*config))` on the owned configuration stored
at `config`.  The call takes the configuration over: whatever the result, the
owned configuration is left null. -/
def z_open (N : Native) (config : Nat) (w : World) : Option (Option Session × World) :=
  match w.load config with
  | some (Cell.config c) =>
    let res := N.z_open c w
    some (res, (w.set config (Cell.config none)).log (Event.z_open c res))
  | _ => none

/-- The zenoh-pico call `z_close(z_move(*s))` on the owned session stored at `s`.
The call takes the session over: the owned session is left null, and its
storage stays allocated. -/
def z_close (s : Nat) (w : World) : Option World :=
  match w.load s with
  | some (Cell.session sl) => some ((w.set s (Cell.session none)).log (Event.z_close sl))
  | _ => none

/-- The copy `z_string_make(s)` of a C string. -/
def z_string_make (buf : List Nat) : List Nat := cstr buf

/-! ## The functions of `zenoh.cpp` -/

/-- Source lines 106-122. -/
def zw_default_config (N : Native) (locator_str : StdString) (w : World) : Outcome Int :=
  match locator_str.data with
  | none => Outcome.ret 0 w
  | some locator =>
    match z_malloc N N.sizeof_owned_config w with
    | (config, w1) =>
      match w1.store config (Cell.config (N.z_config_default w1)) with
      | none => Outcome.ub
      | some w2 =>
        match w2.load config with
        | some (Cell.config c) =>
          let value := z_string_make locator
          let w3 := w2.log (Event.zp_config_insert c N.Z_CONFIG_CONNECT_KEY value)
          let w4 :=
            match c with
            | none => w3
            | some cfg =>
              w3.set config
                (Cell.config (some (N.zp_config_insert cfg N.Z_CONFIG_CONNECT_KEY value)))
          Outcome.ret (ptrToInt config) w4
        | _ => Outcome.ub

/-- Source lines 125-139. -/
def zw_open_session (N : Native) (config_ptr : Int) (w : World) : Outcome Int :=
  let config := intToPtr config_ptr
  match z_malloc N N.sizeof_owned_session w with
  | (session, w1) =>
    match z_open N config w1 with
    | none => Outcome.ub
    | some (res, w2) =>
      match w2.store session (Cell.session res) with
      | none => Outcome.ub
      | some w3 =>
        match w3.load session with
        | some (Cell.session v) =>
          if v.isSome = false then
            let w4 := w3.print "Unable to open session!\n"
            match z_free session w4 with
            | none => Outcome.ub
            | some w5 => Outcome.ret 0 w5
          else Outcome.ret (ptrToInt session) w3
        | _ => Outcome.ub

/-- Source lines 141-151. -/
def zw_start_tasks (N : Native) (session_ptr : Int) (w : World) : Outcome Int :=
  let s := intToPtr session_ptr
  match w.load s with
  | some (Cell.session sl) =>
    let r := wrapInt8 (N.zp_start_read_task sl w)
    let w1 := w.log (Event.zp_start_read_task sl r)
    if r < 0 then
      Outcome.ret (-1) (w1.print "Unable to start read and lease tasks")
    else
      match w1.load s with
      | some (Cell.session sl2) =>
        let l := wrapInt8 (N.zp_start_lease_task sl2 w1)
        let w2 := w1.log (Event.zp_start_lease_task sl2 l)
        if l < 0 then
          Outcome.ret (-1) (w2.print "Unable to start read and lease tasks")
        else Outcome.ret 0 w2
      | _ => Outcome.ub
  | _ => Outcome.ub

/-- Source lines 154-182. -/
def zw_declare_ke (N : Native) (session_ptr : Int) (keyexpr_str : StdString) (w : World) :
    Outcome Int :=
  let s := intToPtr session_ptr
  match z_malloc N N.sizeof_owned_keyexpr w with
  | (ke, w1) =>
    let keyexpr := keyexpr_str.data
    let key := N.z_keyexpr (keyexpr.map cstr)
    match w1.load s with
    | some (Cell.session sl) =>
      let res := N.z_declare_keyexpr sl key w1
      let w2 := w1.log (Event.z_declare_keyexpr sl key res)
      match w2.store ke (Cell.keyexpr res) with
      | none => Outcome.ub
      | some w3 =>
        match w3.load ke with
        | some (Cell.keyexpr v) =>
          if v.isSome = false then
            Outcome.exit (-1) (w3.print "Unable to declare key expression!\n")
          else Outcome.ret (ptrToInt ke) w3
        | _ => Outcome.ub
    | _ => Outcome.ub

/-- Source lines 193-194: the local `options` of `zw_put`, the default put
options with the encoding overwritten. -/
def zw_put_options (N : Native) : z_put_options_t :=
  { N.z_put_options_default with
    encoding := z_encoding z_encoding_prefix_t.Z_ENCODING_PREFIX_TEXT_PLAIN none }

/-- Source lines 184-206. -/
def zw_put (N : Native) (session_ptr key_expr_ptr : Int) (value_str : StdString) (w : World) :
    Outcome Int :=
  let options := zw_put_options N
  let s := intToPtr session_ptr
  let ke := intToPtr key_expr_ptr
  let value := value_str.data
  match w.load s, w.load ke with
  | some (Cell.session sl), some (Cell.keyexpr kl) =>
    let status := wrapInt8 (N.z_put sl kl value value_str.length options w)
    Outcome.ret status (w.log (Event.z_put sl kl value value_str.length options status))
  | _, _ => Outcome.ub

/-- Source lines 225-230. -/
def zw_close_session (session_ptr : Int) (w : World) : Outcome Unit :=
  let s := intToPtr session_ptr
  match z_close s w with
  | none => Outcome.ub
  | some w1 => Outcome.ret () w1

/-- Source lines 263-269. -/
def remove_js_callback (_ts_cb : Nat) (w : World) : Outcome Unit :=
  Outcome.ret () (w.print "    C - remove_js_callback!\n")

/-- Source lines 271-284. -/
def wrapping_sub_callback (_sample : z_sample_t) (ts_cb_ptr : Nat) (w : World) :
    Outcome Unit :=
  let w1 := w.print "    INSIDE wrapping_sub_callback - ts_cb_ptr\n"
  match w1.load ts_cb_ptr with
  | some (Cell.val ts_cb) =>
    Outcome.ret () (w1.log (Event.host_call_await ts_cb (HostArg.int 100)))
  | _ => Outcome.ub

/-- Source lines 289-325. -/
def neo_zw_sub (N : Native) (session_ptr ke_ptr : Int) (ts_cb : Val) (w : World) :
    Outcome Int :=
  let w1 := w.print "    C - neo_zw_sub!\n"
  let w2 := w1.print ("    session_ptr: " ++ toString session_ptr ++ "\n")
  let w3 := w2.print ("    ke_ptr: " ++ toString ke_ptr ++ "\n")
  let w4 := w3.print ("     ptr: " ++ N.this_thread_id ++ "\n")
  let session := intToPtr session_ptr
  let keyexpr := intToPtr ke_ptr
  match z_malloc N N.sizeof_val w4 with
  | (ts_cb_local_ptr, w5) =>
    let w6 := w5.print "     Before MOve: \n"
    match w6.store ts_cb_local_ptr (Cell.val ts_cb) with
    | none => Outcome.ub
    | some w7 =>
      let w8 := w7.print "     After MOve: \n"
      let callback : z_owned_closure_sample_t :=
        ⟨SampleHandler.wrapping_sub_callback, ClosureDropper.remove_js_callback, ts_cb_local_ptr⟩
      match w8.load session, w8.load keyexpr with
      | some (Cell.session sl), some (Cell.keyexpr kl) =>
        let sub := N.z_declare_subscriber sl kl callback w8
        Outcome.ret 10 (w8.log (Event.z_declare_subscriber sl kl callback sub))
      | _, _ => Outcome.ub

/-! ## A concrete environment -/

/-- The blocks the sample allocator hands out, in order of preference. -/
def sampleBlocks : List Nat := [8, 16, 24, 32, 40, 48]

/-- A first-fit allocator over `sampleBlocks`, and fixed answers for the
zenoh-pico calls: `openOk` and `declOk` say whether opening a session and
declaring a key expression succeed, `readSt`, `leaseSt` and `putSt` are the
statuses of the task startups and of a publish. -/
def sampleNative (openOk declOk : Bool) (readSt leaseSt putSt : Int) : Native where
  malloc_addr := fun _ w => ((sampleBlocks.find? (fun a => w.heap a = Cell.unalloc)).getD 0)
  sizeof_owned_config := 4
  sizeof_owned_session := 4
  sizeof_owned_keyexpr := 4
  sizeof_val := 4
  Z_CONFIG_CONNECT_KEY := 64
  z_config_default := fun _ => some []
  zp_config_insert := fun cfg k v => (k, v) :: cfg
  z_open := fun c _ => if openOk then c.map (fun cfg => cfg.length) else none
  zp_start_read_task := fun _ _ => readSt
  zp_start_lease_task := fun _ _ => leaseSt
  z_keyexpr := fun s => ⟨0, s.getD []⟩
  z_declare_keyexpr := fun s k w =>
    if declOk then s.map (fun _ => ⟨w.trace.length, k.suffix⟩) else none
  z_put_options_default := ⟨⟨z_encoding_prefix_t.Z_ENCODING_PREFIX_EMPTY, none⟩, 0, 5⟩
  z_put := fun _ _ _ _ _ _ => putSt
  z_declare_subscriber := fun s _ _ w => s.map (fun _ => w.trace.length)
  this_thread_id := "1"

/-- Nothing allocated, nothing called, nothing printed. -/
def emptyWorld : World := ⟨fun _ => Cell.unalloc, [], []⟩

/-- A world with a configuration stored at address 8. -/
def configWorld : World :=
  emptyWorld.set 8 (Cell.config (some [(64, [116, 99, 112])]))

/-- A world with an open session at address 8 and a key expression at address 16. -/
def sessionWorld : World :=
  (emptyWorld.set 8 (Cell.session (some 1))).set 16
    (Cell.keyexpr (some ⟨1, [100, 101, 109, 111]⟩))

/-- The five bytes of the text hello. -/
def helloBytes : List Nat := [104, 101, 108, 108, 111]

/-- A sample on the key expression demo that carries the text hello. -/
def helloSample : z_sample_t := ⟨⟨1, [100, 101, 109, 111]⟩, helloBytes⟩

/-- A world with the host callback 7 stored at address 24. -/
def callbackWorld : World := emptyWorld.set 24 (Cell.val 7)


/-! ## Worlds reached by the functions -/

/-- The world `zw_open_session` leaves when the engine rejects the open. -/
def openFailWorld (w : World) (cfg a : Nat) (c : Option Config) : World :=
  (((((w.set a Cell.raw).set cfg (Cell.config none)).log (Event.z_open c none)).set a
    (Cell.session none)).print "Unable to open session!\n").set a Cell.unalloc

/-- The world `zw_open_session` leaves when the engine opens session `s`. -/
def openOkWorld (w : World) (cfg a : Nat) (c : Option Config) (s : Session) : World :=
  (((w.set a Cell.raw).set cfg (Cell.config none)).log (Event.z_open c (some s))).set a
    (Cell.session (some s))

/-- The world `zw_default_config` leaves after storing a configuration at `a`. -/
def configMadeWorld (N : Native) (w : World) (a : Nat) (locator : List Nat) : World :=
  let c := N.z_config_default (w.set a Cell.raw)
  let w3 := (((w.set a Cell.raw).set a (Cell.config c)).log
    (Event.zp_config_insert c N.Z_CONFIG_CONNECT_KEY (cstr locator)))
  match c with
  | none => w3
  | some cfg =>
    w3.set a (Cell.config (some (N.zp_config_insert cfg N.Z_CONFIG_CONNECT_KEY (cstr locator))))

/-! ## Memory and cast lemmas -/

@[simp] theorem heap_set (w : World) (p : Nat) (c : Cell) (a : Nat) :
    (w.set p c).heap a = if a = p then c else w.heap a := rfl

@[simp] theorem heap_log (w : World) (e : Event) : (w.log e).heap = w.heap := rfl

@[simp] theorem heap_print (w : World) (s : String) : (w.print s).heap = w.heap := rfl

@[simp] theorem trace_set (w : World) (p : Nat) (c : Cell) : (w.set p c).trace = w.trace := rfl

@[simp] theorem trace_log (w : World) (e : Event) : (w.log e).trace = w.trace ++ [e] := rfl

@[simp] theorem trace_print (w : World) (s : String) : (w.print s).trace = w.trace := rfl

@[simp] theorem out_set (w : World) (p : Nat) (c : Cell) : (w.set p c).out = w.out := rfl

@[simp] theorem out_log (w : World) (e : Event) : (w.log e).out = w.out := rfl

@[simp] theorem out_print (w : World) (s : String) : (w.print s).out = w.out ++ [s] := rfl

@[simp] theorem load_log (w : World) (e : Event) (p : Nat) : (w.log e).load p = w.load p := rfl

@[simp] theorem load_print (w : World) (s : String) (p : Nat) :
    (w.print s).load p = w.load p := rfl

theorem ptrToInt_eq_zero_iff (a : Nat) (h : a < 2 ^ 32) : ptrToInt a = 0 ↔ a = 0 := by
  unfold ptrToInt
  rw [Nat.mod_eq_of_lt h]
  have h2 : a < 4294967296 := by simpa using h
  have e1 : (2:Nat)^31 = 2147483648 := by norm_num
  have e2 : (2:Int)^32 = 4294967296 := by norm_num
  rw [e1, e2]
  split <;> omega

theorem intToPtr_ptrToInt (a : Nat) (h : a < 2 ^ 32) : intToPtr (ptrToInt a) = a := by
  unfold ptrToInt intToPtr
  rw [Nat.mod_eq_of_lt h]
  have h2 : a < 4294967296 := by simpa using h
  have e1 : (2:Nat)^31 = 2147483648 := by norm_num
  have e2 : (2:Int)^32 = 4294967296 := by norm_num
  rw [e1, e2]
  split <;> omega

theorem load_set_same (w : World) (p : Nat) (c : Cell) (hp : p ≠ 0) (hc : c ≠ Cell.unalloc) :
    (w.set p c).load p = some c := by
  cases c <;> simp_all [World.load, World.set]

theorem load_set_other (w : World) (p q : Nat) (c : Cell) (h : q ≠ p) :
    (w.set p c).load q = w.load q := by
  unfold World.load World.set
  simp only [if_neg h]

theorem load_eq_some (w : World) (p : Nat) (c : Cell) (h : w.load p = some c) :
    p ≠ 0 ∧ w.heap p = c ∧ c ≠ Cell.unalloc := by
  unfold World.load at h
  by_cases hp : p = 0
  · simp [hp] at h
  · simp only [if_neg hp] at h
    refine ⟨hp, ?_⟩
    cases hh : w.heap p <;> rw [hh] at h <;> simp at h <;> subst h <;> simp

theorem z_malloc_lt (N : Native) (size : Nat) (w : World) : (z_malloc N size w).1 < 2 ^ 32 := by
  unfold z_malloc
  have : N.malloc_addr size w % 2 ^ 32 < 2 ^ 32 := Nat.mod_lt _ (by norm_num)
  by_cases h : N.malloc_addr size w % 2 ^ 32 = 0
  · simp only [h, if_true]; norm_num
  · simp only [h, if_false]; exact this

theorem z_malloc_snd (N : Native) (size : Nat) (w : World) (h : (z_malloc N size w).1 ≠ 0) :
    (z_malloc N size w).2 = w.set (z_malloc N size w).1 Cell.raw := by
  unfold z_malloc at h ⊢
  by_cases h0 : N.malloc_addr size w % 2 ^ 32 = 0
  · simp only [h0, if_true] at h; exact absurd rfl h
  · simp only [h0, if_false]

/-- The result of an allocation that succeeded. -/
theorem z_malloc_eq (N : Native) (size : Nat) (w : World) (h : (z_malloc N size w).1 ≠ 0) :
    z_malloc N size w = ((z_malloc N size w).1, w.set (z_malloc N size w).1 Cell.raw) := by
  rw [← z_malloc_snd N size w h]

/-! ## Opening a session -/

/-- Step-by-step evaluation of `zw_open_session` on a stored configuration with a
fresh session block at `a`. -/
theorem zw_open_session_eval (N : Native) (config_ptr : Int) (w : World) (c : Option Config)
    (a : Nat) (hm : z_malloc N N.sizeof_owned_session w = (a, w.set a Cell.raw))
    (hcfg : w.load (intToPtr config_ptr) = some (Cell.config c))
    (hnn : a ≠ 0) (hfresh : w.heap a = Cell.unalloc) :
    zw_open_session N config_ptr w =
      match N.z_open c (w.set a Cell.raw) with
      | none => Outcome.ret 0 (openFailWorld w (intToPtr config_ptr) a c)
      | some s => Outcome.ret (ptrToInt a) (openOkWorld w (intToPtr config_ptr) a c s) := by
  obtain ⟨hc0, hheap, -⟩ := load_eq_some w _ _ hcfg
  have hac : intToPtr config_ptr ≠ a := by
    intro h; rw [h, hfresh] at hheap; exact Cell.noConfusion hheap
  have hca : a ≠ intToPtr config_ptr := fun h => hac h.symm
  have hl1 : (w.set a Cell.raw).load (intToPtr config_ptr) = some (Cell.config c) := by
    rw [load_set_other _ _ _ _ hac]; exact hcfg
  unfold zw_open_session z_open
  rw [hm]
  simp only [hl1]
  cases hres : N.z_open c (w.set a Cell.raw) with
  | none =>
    simp [World.store, World.load, World.set, World.log, World.print, z_free, hnn, hca,
      openFailWorld]
  | some s =>
    simp [World.store, World.load, World.set, World.log, hnn, hca, openOkWorld]

/-- C1: for a handle of a stored configuration, when the allocator hands out a fresh
block, `zw_open_session` returns; the result is 0 exactly when the session that
`z_open` produced fails `z_check` (is null), and then the block allocated for the
session has been freed; otherwise the result is the non-zero handle of that
block, which holds the opened session. -/
theorem zw_open_session_result (N : Native) (config_ptr : Int) (w : World) (c : Option Config)
    (hcfg : w.load (intToPtr config_ptr) = some (Cell.config c))
    (hnn : (z_malloc N N.sizeof_owned_session w).1 ≠ 0)
    (hfresh : w.heap (z_malloc N N.sizeof_owned_session w).1 = Cell.unalloc) :
    ∃ r w',
      zw_open_session N config_ptr w = Outcome.ret r w' ∧
      w'.trace = w.trace ++
        [Event.z_open c (N.z_open c (z_malloc N N.sizeof_owned_session w).2)] ∧
      (r = 0 ↔ N.z_open c (z_malloc N N.sizeof_owned_session w).2 = none) ∧
      (r = 0 → w'.heap (z_malloc N N.sizeof_owned_session w).1 = Cell.unalloc) ∧
      (r ≠ 0 → r = ptrToInt (z_malloc N N.sizeof_owned_session w).1 ∧
        ∃ s, N.z_open c (z_malloc N N.sizeof_owned_session w).2 = some s ∧
          w'.load (intToPtr r) = some (Cell.session (some s))) := by
  have hlt := z_malloc_lt N N.sizeof_owned_session w
  have hm := z_malloc_eq N N.sizeof_owned_session w hnn
  have hsnd := z_malloc_snd N N.sizeof_owned_session w hnn
  generalize (z_malloc N N.sizeof_owned_session w).1 = a at *
  rw [hsnd, zw_open_session_eval N config_ptr w c a hm hcfg hnn hfresh]
  cases hres : N.z_open c (w.set a Cell.raw) with
  | none =>
    refine ⟨0, _, rfl, ?_, ?_, ?_, ?_⟩
    · simp [openFailWorld]
    · simp
    · intro _; simp [openFailWorld]
    · intro h; exact absurd rfl h
  | some s =>
    have hr : ptrToInt a ≠ 0 := fun h => hnn ((ptrToInt_eq_zero_iff a hlt).1 h)
    refine ⟨ptrToInt a, _, rfl, ?_, ?_, ?_, ?_⟩
    · simp [openOkWorld]
    · simp [hr]
    · intro h; exact absurd h hr
    · intro _
      refine ⟨rfl, s, rfl, ?_⟩
      rw [intToPtr_ptrToInt a hlt]
      exact load_set_same _ _ _ hnn (by simp)

/-- C1 at a concrete input: a configuration at address 8, an engine that accepts it. -/
theorem zw_open_session_result_witness :
    configWorld.load (intToPtr 8) = some (Cell.config (some [(64, [116, 99, 112])])) ∧
    (z_malloc (sampleNative true true 0 0 0) 4 configWorld).1 ≠ 0 ∧
    configWorld.heap (z_malloc (sampleNative true true 0 0 0) 4 configWorld).1 = Cell.unalloc ∧
    ∃ r w', zw_open_session (sampleNative true true 0 0 0) 8 configWorld = Outcome.ret r w' ∧
      w'.trace = [Event.z_open (some [(64, [116, 99, 112])]) (some 1)] :=
  ⟨by decide, by decide, by decide,
    (zw_open_session_result (sampleNative true true 0 0 0) 8 configWorld
      (some [(64, [116, 99, 112])]) (by decide) (by decide) (by decide)).imp
      fun _ h => h.imp fun _ h => ⟨h.1, h.2.1⟩⟩

/-- C2: for a handle of a stored configuration, when the allocator hands out a fresh
block, `zw_open_session` passes the configuration to `z_open` exactly once, and
after the call the owned configuration behind the handle is null (moved out),
both when the result is a session handle and when it is 0. -/
theorem zw_open_session_consumes_config (N : Native) (config_ptr : Int) (w : World)
    (c : Option Config)
    (hcfg : w.load (intToPtr config_ptr) = some (Cell.config c))
    (hnn : (z_malloc N N.sizeof_owned_session w).1 ≠ 0)
    (hfresh : w.heap (z_malloc N N.sizeof_owned_session w).1 = Cell.unalloc) :
    ∃ r w' res,
      zw_open_session N config_ptr w = Outcome.ret r w' ∧
      w'.trace = w.trace ++ [Event.z_open c res] ∧
      (r = 0 ↔ res = none) ∧
      w'.load (intToPtr config_ptr) = some (Cell.config none) := by
  have hm := z_malloc_eq N N.sizeof_owned_session w hnn
  have hlt := z_malloc_lt N N.sizeof_owned_session w
  generalize (z_malloc N N.sizeof_owned_session w).1 = a at *
  obtain ⟨hc0, hheap, -⟩ := load_eq_some w _ _ hcfg
  have hac : intToPtr config_ptr ≠ a := by
    intro h; rw [h, hfresh] at hheap; exact Cell.noConfusion hheap
  rw [zw_open_session_eval N config_ptr w c a hm hcfg hnn hfresh]
  cases hres : N.z_open c (w.set a Cell.raw) with
  | none =>
    refine ⟨0, _, none, rfl, ?_, ?_, ?_⟩
    · simp [openFailWorld]
    · simp
    · simp [openFailWorld, World.load, hc0, hac]
  | some s =>
    have hr : ptrToInt a ≠ 0 := fun h => hnn ((ptrToInt_eq_zero_iff a hlt).1 h)
    refine ⟨ptrToInt a, _, some s, rfl, ?_, ?_, ?_⟩
    · simp [openOkWorld]
    · simp [hr]
    · simp [openOkWorld, World.load, hc0, hac]

/-- C2 at a concrete input: a configuration at address 8, an engine that rejects it. -/
theorem zw_open_session_consumes_config_witness :
    configWorld.load (intToPtr 8) = some (Cell.config (some [(64, [116, 99, 112])])) ∧
    (z_malloc (sampleNative false true 0 0 0) 4 configWorld).1 ≠ 0 ∧
    configWorld.heap (z_malloc (sampleNative false true 0 0 0) 4 configWorld).1 =
      Cell.unalloc ∧
    ∃ r w' res, zw_open_session (sampleNative false true 0 0 0) 8 configWorld =
        Outcome.ret r w' ∧
      w'.trace = configWorld.trace ++ [Event.z_open (some [(64, [116, 99, 112])]) res] ∧
      (r = 0 ↔ res = none) ∧
      w'.load (intToPtr 8) = some (Cell.config none) :=
  ⟨by decide, by decide, by decide,
    zw_open_session_consumes_config (sampleNative false true 0 0 0) 8 configWorld
      (some [(64, [116, 99, 112])]) (by decide) (by decide) (by decide)⟩

/-! ## Publishing -/

/-- Evaluation of `zw_put` on a stored session and a stored key expression. -/
theorem zw_put_eval (N : Native) (session_ptr key_expr_ptr : Int)
    (value_str : StdString) (w : World) (sl : Option Session) (kl : Option KeyExpr)
    (hs : w.load (intToPtr session_ptr) = some (Cell.session sl))
    (hk : w.load (intToPtr key_expr_ptr) = some (Cell.keyexpr kl)) :
    zw_put N session_ptr key_expr_ptr value_str w =
      Outcome.ret
        (wrapInt8 (N.z_put sl kl (some value_str.bytes) value_str.bytes.length
          (zw_put_options N) w))
        (w.log (Event.z_put sl kl (some value_str.bytes) value_str.bytes.length
          (zw_put_options N)
          (wrapInt8 (N.z_put sl kl (some value_str.bytes) value_str.bytes.length
            (zw_put_options N) w)))) := by
  unfold zw_put
  simp only [hs, hk]
  rfl

/-- C3: for handles of a stored session and a stored key expression and every
payload string, `zw_put` returns; it makes exactly one call, a `z_put` on that
session and that key expression with the string's bytes, the string's length
and the text/plain encoding, changes nothing in memory, and its result is the
status `z_put` returned. -/
theorem zw_put_publishes_once (N : Native) (session_ptr key_expr_ptr : Int)
    (value_str : StdString) (w : World) (sl : Option Session) (kl : Option KeyExpr)
    (hs : w.load (intToPtr session_ptr) = some (Cell.session sl))
    (hk : w.load (intToPtr key_expr_ptr) = some (Cell.keyexpr kl)) :
    ∃ status w',
      zw_put N session_ptr key_expr_ptr value_str w = Outcome.ret status w' ∧
      w'.trace = w.trace ++
        [Event.z_put sl kl (some value_str.bytes) value_str.bytes.length
          (zw_put_options N) status] ∧
      w'.heap = w.heap ∧
      (zw_put_options N).encoding =
        ⟨z_encoding_prefix_t.Z_ENCODING_PREFIX_TEXT_PLAIN, none⟩ ∧
      status = wrapInt8 (N.z_put sl kl (some value_str.bytes) value_str.bytes.length
        (zw_put_options N) w) := by
  refine ⟨wrapInt8 (N.z_put sl kl (some value_str.bytes) value_str.bytes.length
      (zw_put_options N) w),
    w.log (Event.z_put sl kl (some value_str.bytes) value_str.bytes.length (zw_put_options N)
      (wrapInt8 (N.z_put sl kl (some value_str.bytes) value_str.bytes.length
        (zw_put_options N) w))),
    zw_put_eval N session_ptr key_expr_ptr value_str w sl kl hs hk, rfl, rfl, rfl, rfl⟩

/-- C3 at a concrete input: the text hello published on the session at 8 and the
key expression at 16. -/
theorem zw_put_publishes_once_witness :
    sessionWorld.load (intToPtr 8) = some (Cell.session (some 1)) ∧
    sessionWorld.load (intToPtr 16) = some (Cell.keyexpr (some ⟨1, [100, 101, 109, 111]⟩)) ∧
    ∃ status w',
      zw_put (sampleNative true true 0 0 0) 8 16 ⟨helloBytes⟩ sessionWorld =
        Outcome.ret status w' ∧
      w'.trace = [Event.z_put (some 1) (some ⟨1, [100, 101, 109, 111]⟩) (some helloBytes) 5
          (zw_put_options (sampleNative true true 0 0 0)) status] :=
  ⟨by decide, by decide,
    (zw_put_publishes_once (sampleNative true true 0 0 0) 8 16 ⟨helloBytes⟩ sessionWorld
      (some 1) (some ⟨1, [100, 101, 109, 111]⟩) (by decide) (by decide)).imp
      fun _ h => h.imp fun _ h => ⟨h.1, h.2.1⟩⟩

/-! ## Publishing on a closed session -/

/-- C7, as stated, fails: after `zw_close_session` on the session at 8, `zw_put` on
that handle still calls `z_put` (with a null session) and returns its status 0;
no error is produced before the call. -/
theorem zw_put_after_close_calls_z_put :
    ∃ w1 w2,
      zw_close_session 8 sessionWorld = Outcome.ret () w1 ∧
      zw_put (sampleNative true true 0 0 0) 8 16 ⟨[120]⟩ w1 = Outcome.ret 0 w2 ∧
      w2.trace =
        [Event.z_close (some 1),
         Event.z_put none (some ⟨1, [100, 101, 109, 111]⟩) (some [120]) 1
           (zw_put_options (sampleNative true true 0 0 0)) 0] :=
  ⟨_, _, rfl, rfl, rfl⟩

/-- C7, amended: for handles of a stored session and a stored key expression,
`zw_close_session` passes the session to `z_close` and leaves the owned session
behind the handle null; a following `zw_put` on the same handles performs no
check of its own: it calls `z_put` exactly once, with the null session, and
returns the status `z_put` returned. -/
theorem zw_put_after_close (N : Native) (h2 h3 : Int) (payload : StdString) (w : World)
    (sl : Option Session) (kl : Option KeyExpr)
    (hs : w.load (intToPtr h2) = some (Cell.session sl))
    (hk : w.load (intToPtr h3) = some (Cell.keyexpr kl)) :
    ∃ w1 status w2,
      zw_close_session h2 w = Outcome.ret () w1 ∧
      w1.load (intToPtr h2) = some (Cell.session none) ∧
      zw_put N h2 h3 payload w1 = Outcome.ret status w2 ∧
      w2.trace = w.trace ++
        [Event.z_close sl,
         Event.z_put none kl (some payload.bytes) payload.bytes.length (zw_put_options N)
           status] ∧
      status = wrapInt8 (N.z_put none kl (some payload.bytes) payload.bytes.length
        (zw_put_options N) w1) := by
  obtain ⟨hs0, hsh, -⟩ := load_eq_some w _ _ hs
  obtain ⟨hk0, hkh, -⟩ := load_eq_some w _ _ hk
  have hne : intToPtr h3 ≠ intToPtr h2 := by
    intro h; rw [h, hsh] at hkh; exact Cell.noConfusion hkh
  have hs1 : ((w.set (intToPtr h2) (Cell.session none)).log (Event.z_close sl)).load
      (intToPtr h2) = some (Cell.session none) := by
    rw [load_log]; exact load_set_same _ _ _ hs0 (by simp)
  have hk1 : ((w.set (intToPtr h2) (Cell.session none)).log (Event.z_close sl)).load
      (intToPtr h3) = some (Cell.keyexpr kl) := by
    rw [load_log, load_set_other _ _ _ _ hne]; exact hk
  refine ⟨(w.set (intToPtr h2) (Cell.session none)).log (Event.z_close sl), _, _, ?_, hs1,
    zw_put_eval N h2 h3 payload _ none kl hs1 hk1, ?_, rfl⟩
  · unfold zw_close_session z_close
    simp only [hs]
  · simp

/-- C7 amended, at a concrete input: the session at 8, the key expression at 16
and the one-byte payload x. -/
theorem zw_put_after_close_witness :
    sessionWorld.load (intToPtr 8) = some (Cell.session (some 1)) ∧
    sessionWorld.load (intToPtr 16) = some (Cell.keyexpr (some ⟨1, [100, 101, 109, 111]⟩)) ∧
    ∃ w1 status w2,
      zw_close_session 8 sessionWorld = Outcome.ret () w1 ∧
      w1.load (intToPtr 8) = some (Cell.session none) ∧
      zw_put (sampleNative true true 0 0 0) 8 16 ⟨[120]⟩ w1 = Outcome.ret status w2 :=
  ⟨by decide, by decide,
    (zw_put_after_close (sampleNative true true 0 0 0) 8 16 ⟨[120]⟩ sessionWorld (some 1)
      (some ⟨1, [100, 101, 109, 111]⟩) (by decide) (by decide)).imp
      fun _ h => h.imp fun _ h => h.imp fun _ h => ⟨h.1, h.2.1, h.2.2.1⟩⟩

/-! ## Starting the background tasks -/

/-- Evaluation of `zw_start_tasks` on a stored session. -/
theorem zw_start_tasks_eval (N : Native) (session_ptr : Int) (w : World) (sl : Option Session)
    (hs : w.load (intToPtr session_ptr) = some (Cell.session sl)) :
    zw_start_tasks N session_ptr w =
      if wrapInt8 (N.zp_start_read_task sl w) < 0 then
        Outcome.ret (-1)
          ((w.log (Event.zp_start_read_task sl (wrapInt8 (N.zp_start_read_task sl w)))).print
            "Unable to start read and lease tasks")
      else if wrapInt8 (N.zp_start_lease_task sl
          (w.log (Event.zp_start_read_task sl (wrapInt8 (N.zp_start_read_task sl w))))) < 0 then
        Outcome.ret (-1)
          (((w.log (Event.zp_start_read_task sl (wrapInt8 (N.zp_start_read_task sl w)))).log
            (Event.zp_start_lease_task sl (wrapInt8 (N.zp_start_lease_task sl
              (w.log (Event.zp_start_read_task sl
                (wrapInt8 (N.zp_start_read_task sl w)))))))).print
            "Unable to start read and lease tasks")
      else
        Outcome.ret 0
          ((w.log (Event.zp_start_read_task sl (wrapInt8 (N.zp_start_read_task sl w)))).log
            (Event.zp_start_lease_task sl (wrapInt8 (N.zp_start_lease_task sl
              (w.log (Event.zp_start_read_task sl
                (wrapInt8 (N.zp_start_read_task sl w)))))))) := by
  unfold zw_start_tasks
  simp only [hs, load_log]

/-- C9, as stated, fails: when the read-task startup returns -1 on the session at 8,
`zw_start_tasks` returns -1 and the only call it made is that startup; the
lease-task startup was not invoked. -/
theorem zw_start_tasks_skips_lease :
    ∃ w', zw_start_tasks (sampleNative true true (-1) 0 0) 8 sessionWorld =
        Outcome.ret (-1) w' ∧
      w'.trace = [Event.zp_start_read_task (some 1) (-1)] :=
  ⟨_, rfl, rfl⟩

/-- C9, amended: for a handle of a stored session, one call of `zw_start_tasks`
invokes the read-task startup exactly once, first; it then invokes the
lease-task startup exactly once when the read-task startup returned a
non-negative status, and not at all when that status was negative. -/
theorem zw_start_tasks_calls (N : Native) (session_ptr : Int) (w : World) (sl : Option Session)
    (hs : w.load (intToPtr session_ptr) = some (Cell.session sl)) :
    ∃ r w' rd ls,
      zw_start_tasks N session_ptr w = Outcome.ret r w' ∧
      rd = wrapInt8 (N.zp_start_read_task sl w) ∧
      ls = wrapInt8 (N.zp_start_lease_task sl (w.log (Event.zp_start_read_task sl rd))) ∧
      (rd < 0 → w'.trace = w.trace ++ [Event.zp_start_read_task sl rd]) ∧
      (0 ≤ rd → w'.trace = w.trace ++
        [Event.zp_start_read_task sl rd, Event.zp_start_lease_task sl ls]) := by
  rw [zw_start_tasks_eval N session_ptr w sl hs]
  by_cases h1 : wrapInt8 (N.zp_start_read_task sl w) < 0
  · rw [if_pos h1]
    exact ⟨_, _, _, _, rfl, rfl, rfl, fun _ => by simp, fun h => absurd h (not_le.mpr h1)⟩
  · rw [if_neg h1]
    by_cases h2 : wrapInt8 (N.zp_start_lease_task sl
        (w.log (Event.zp_start_read_task sl (wrapInt8 (N.zp_start_read_task sl w))))) < 0
    · rw [if_pos h2]
      exact ⟨_, _, _, _, rfl, rfl, rfl, fun h => absurd h h1, fun _ => by simp⟩
    · rw [if_neg h2]
      exact ⟨_, _, _, _, rfl, rfl, rfl, fun h => absurd h h1, fun _ => by simp⟩

/-- C9 amended, at a concrete input: both startups succeed on the session at 8. -/
theorem zw_start_tasks_calls_witness :
    sessionWorld.load (intToPtr 8) = some (Cell.session (some 1)) ∧
    ∃ r w', zw_start_tasks (sampleNative true true 0 0 0) 8 sessionWorld = Outcome.ret r w' ∧
      w'.trace = [Event.zp_start_read_task (some 1) 0, Event.zp_start_lease_task (some 1) 0] :=
  ⟨by decide,
    (zw_start_tasks_calls (sampleNative true true 0 0 0) 8 sessionWorld (some 1)
      (by decide)).imp
      fun _ h => h.imp fun _ h => by
        obtain ⟨rd, ls, h0, hrd, hls, _, h2⟩ := h
        subst hrd
        subst hls
        exact ⟨h0, h2 (by decide)⟩⟩

/-- C10: for a handle of a stored session, `zw_start_tasks` returns 0 or -1; it
returns 0 exactly when the read-task startup and the lease-task startup both
return a non-negative status (and then both were called), and -1 exactly when
one of them returns a negative status. -/
theorem zw_start_tasks_status (N : Native) (session_ptr : Int) (w : World)
    (sl : Option Session)
    (hs : w.load (intToPtr session_ptr) = some (Cell.session sl)) :
    ∃ r w' rd ls,
      zw_start_tasks N session_ptr w = Outcome.ret r w' ∧
      rd = wrapInt8 (N.zp_start_read_task sl w) ∧
      ls = wrapInt8 (N.zp_start_lease_task sl (w.log (Event.zp_start_read_task sl rd))) ∧
      (r = 0 ∨ r = -1) ∧
      (r = 0 ↔ 0 ≤ rd ∧ 0 ≤ ls) ∧
      (r = -1 ↔ rd < 0 ∨ ls < 0) ∧
      (r = 0 → w'.trace = w.trace ++
        [Event.zp_start_read_task sl rd, Event.zp_start_lease_task sl ls]) := by
  rw [zw_start_tasks_eval N session_ptr w sl hs]
  by_cases h1 : wrapInt8 (N.zp_start_read_task sl w) < 0
  · rw [if_pos h1]
    refine ⟨_, _, _, _, rfl, rfl, rfl, Or.inr rfl, ?_, ?_, ?_⟩
    · constructor
      · intro h; exact absurd h (by decide)
      · intro h; exact absurd h.1 (not_le.mpr h1)
    · exact ⟨fun _ => Or.inl h1, fun _ => rfl⟩
    · intro h; exact absurd h (by decide)
  · rw [if_neg h1]
    by_cases h2 : wrapInt8 (N.zp_start_lease_task sl
        (w.log (Event.zp_start_read_task sl (wrapInt8 (N.zp_start_read_task sl w))))) < 0
    · rw [if_pos h2]
      refine ⟨_, _, _, _, rfl, rfl, rfl, Or.inr rfl, ?_, ?_, ?_⟩
      · constructor
        · intro h; exact absurd h (by decide)
        · intro h; exact absurd h.2 (not_le.mpr h2)
      · exact ⟨fun _ => Or.inr h2, fun _ => rfl⟩
      · intro h; exact absurd h (by decide)
    · rw [if_neg h2]
      refine ⟨_, _, _, _, rfl, rfl, rfl, Or.inl rfl, ?_, ?_, ?_⟩
      · exact ⟨fun _ => ⟨not_lt.mp h1, not_lt.mp h2⟩, fun _ => rfl⟩
      · constructor
        · intro h; exact absurd h (by decide)
        · intro h
          rcases h with h | h
          · exact absurd h h1
          · exact absurd h h2
      · intro _; simp

/-- C10 at a concrete input: the lease-task startup fails on the session at 8. -/
theorem zw_start_tasks_status_witness :
    sessionWorld.load (intToPtr 8) = some (Cell.session (some 1)) ∧
    ∃ r w', zw_start_tasks (sampleNative true true 0 (-3) 0) 8 sessionWorld =
      Outcome.ret r w' ∧ r = -1 :=
  ⟨by decide,
    (zw_start_tasks_status (sampleNative true true 0 (-3) 0) 8 sessionWorld (some 1)
      (by decide)).imp
      fun _ h => h.imp fun _ h => by
        obtain ⟨rd, ls, h0, hrd, hls, _, _, h3, _⟩ := h
        subst hrd
        subst hls
        exact ⟨h0, h3.2 (Or.inr (by decide))⟩⟩

/-! ## Delivery and subscription -/

/-- Evaluation of `wrapping_sub_callback` on a stored host callback: one call of
the callback, whose argument does not depend on the sample. -/
theorem wrapping_sub_callback_eval (sample : z_sample_t) (ts_cb_ptr : Nat) (w : World)
    (ts_cb : Val) (h : w.load ts_cb_ptr = some (Cell.val ts_cb)) :
    wrapping_sub_callback sample ts_cb_ptr w =
      Outcome.ret ()
        ((w.print "    INSIDE wrapping_sub_callback - ts_cb_ptr\n").log
          (Event.host_call_await ts_cb (HostArg.int 100))) := by
  unfold wrapping_sub_callback
  simp only [load_print, h]

/-- Whenever `neo_zw_sub` returns, it returns 10. -/
theorem neo_zw_sub_ret (N : Native) (session_ptr ke_ptr : Int) (ts_cb : Val) (w w' : World)
    (r : Int) (h : neo_zw_sub N session_ptr ke_ptr ts_cb w = Outcome.ret r w') : r = 10 := by
  unfold neo_zw_sub at h
  simp only at h
  split at h
  · exact Outcome.noConfusion h
  · split at h
    · injection h with h1 _
      exact h1.symm
    · exact Outcome.noConfusion h

/-- C4 fails on the code: delivering the sample that carries hello to the callback
stored at 24 calls the host callback once, and its argument is the constant 100,
not the sample. -/
theorem wrapping_sub_callback_passes_constant :
    ∃ w', wrapping_sub_callback helloSample 24 callbackWorld = Outcome.ret () w' ∧
      w'.trace = [Event.host_call_await 7 (HostArg.int 100)] ∧
      w'.trace ≠ [Event.host_call_await 7 (HostArg.sample helloSample)] :=
  ⟨_, rfl, rfl, by decide⟩

/-- C5 fails on the code: two subscriptions declared one after the other on the
session at 8, for the callbacks 7 and 9, are both accepted by the engine, and
both calls of `neo_zw_sub` return the same value 10. -/
theorem neo_zw_sub_returns_same_handle :
    ∃ w1 w2 c1 c2 s1 s2,
      neo_zw_sub (sampleNative true true 0 0 0) 8 16 7 sessionWorld = Outcome.ret 10 w1 ∧
      neo_zw_sub (sampleNative true true 0 0 0) 8 16 9 w1 = Outcome.ret 10 w2 ∧
      w2.trace =
        [Event.z_declare_subscriber (some 1) (some ⟨1, [100, 101, 109, 111]⟩) c1 (some s1),
         Event.z_declare_subscriber (some 1) (some ⟨1, [100, 101, 109, 111]⟩) c2 (some s2)] ∧
      c1.context ≠ c2.context ∧
      w2.load c1.context = some (Cell.val 7) ∧
      w2.load c2.context = some (Cell.val 9) :=
  ⟨_, _, _, _, _, _, rfl, rfl, rfl, by decide, by decide, by decide⟩

/-! ## Declaring a key expression -/

/-- Evaluation of `zw_declare_ke` on a stored session with a fresh block at `a`. -/
theorem zw_declare_ke_eval (N : Native) (session_ptr : Int) (keyexpr_str : StdString)
    (w : World) (sl : Option Session) (a : Nat)
    (hm : z_malloc N N.sizeof_owned_keyexpr w = (a, w.set a Cell.raw))
    (hs : w.load (intToPtr session_ptr) = some (Cell.session sl))
    (hnn : a ≠ 0) (hfresh : w.heap a = Cell.unalloc) :
    zw_declare_ke N session_ptr keyexpr_str w =
      match N.z_declare_keyexpr sl (N.z_keyexpr (some (cstr keyexpr_str.bytes)))
          (w.set a Cell.raw) with
      | none =>
        Outcome.exit (-1)
          ((((w.set a Cell.raw).log (Event.z_declare_keyexpr sl
            (N.z_keyexpr (some (cstr keyexpr_str.bytes))) none)).set a (Cell.keyexpr none)).print
            "Unable to declare key expression!\n")
      | some k =>
        Outcome.ret (ptrToInt a)
          (((w.set a Cell.raw).log (Event.z_declare_keyexpr sl
            (N.z_keyexpr (some (cstr keyexpr_str.bytes))) (some k))).set a
            (Cell.keyexpr (some k))) := by
  obtain ⟨hs0, hheap, -⟩ := load_eq_some w _ _ hs
  have hsa : intToPtr session_ptr ≠ a := by
    intro h; rw [h, hfresh] at hheap; exact Cell.noConfusion hheap
  have hl1 : (w.set a Cell.raw).load (intToPtr session_ptr) = some (Cell.session sl) := by
    rw [load_set_other _ _ _ _ hsa]; exact hs
  unfold zw_declare_ke
  rw [hm]
  simp only [StdString.data, Option.map, hl1]
  cases hres : N.z_declare_keyexpr sl (N.z_keyexpr (some (cstr keyexpr_str.bytes)))
      (w.set a Cell.raw) with
  | none => simp [World.store, World.load, World.set, World.log, World.print, hnn]
  | some k => simp [World.store, World.load, World.set, World.log, hnn]

/-- C6, as stated, fails: when the engine rejects the declaration of the pattern
demo on the session at 8, `zw_declare_ke` ends the process with `exit(-1)`; it
does not return to its caller. -/
theorem zw_declare_ke_exits :
    (∃ w', zw_declare_ke (sampleNative true false 0 0 0) 8 ⟨[100, 101, 109, 111]⟩
      sessionWorld = Outcome.exit (-1) w') ∧
    ¬ ∃ r w', zw_declare_ke (sampleNative true false 0 0 0) 8 ⟨[100, 101, 109, 111]⟩
      sessionWorld = Outcome.ret r w' := by
  have h : ∃ w', zw_declare_ke (sampleNative true false 0 0 0) 8 ⟨[100, 101, 109, 111]⟩
      sessionWorld = Outcome.exit (-1) w' := ⟨_, rfl⟩
  refine ⟨h, ?_⟩
  rintro ⟨r, w', hr⟩
  obtain ⟨w2, h2⟩ := h
  rw [h2] at hr
  exact Outcome.noConfusion hr

/-- C6, amended: for a handle of a stored session and every pattern string, when
the allocator hands out a fresh block, `zw_declare_ke` calls `z_declare_keyexpr`
exactly once on that session; when the declared key expression passes `z_check`
it prints nothing and returns the non-zero handle of the block that stores it;
when it fails `z_check` the function prints the one line
"Unable to declare key expression!" and does not return: the process ends with
`exit(-1)`. -/
theorem zw_declare_ke_outcome (N : Native) (session_ptr : Int) (keyexpr_str : StdString)
    (w : World) (sl : Option Session)
    (hs : w.load (intToPtr session_ptr) = some (Cell.session sl))
    (hnn : (z_malloc N N.sizeof_owned_keyexpr w).1 ≠ 0)
    (hfresh : w.heap (z_malloc N N.sizeof_owned_keyexpr w).1 = Cell.unalloc) :
    ∃ w' res,
      res = N.z_declare_keyexpr sl (N.z_keyexpr (some (cstr keyexpr_str.bytes)))
        (z_malloc N N.sizeof_owned_keyexpr w).2 ∧
      w'.trace = w.trace ++
        [Event.z_declare_keyexpr sl (N.z_keyexpr (some (cstr keyexpr_str.bytes))) res] ∧
      (res = none →
        zw_declare_ke N session_ptr keyexpr_str w = Outcome.exit (-1) w' ∧
        w'.out = w.out ++ ["Unable to declare key expression!\n"]) ∧
      (∀ k, res = some k →
        zw_declare_ke N session_ptr keyexpr_str w =
          Outcome.ret (ptrToInt (z_malloc N N.sizeof_owned_keyexpr w).1) w' ∧
        w'.out = w.out ∧
        ptrToInt (z_malloc N N.sizeof_owned_keyexpr w).1 ≠ 0 ∧
        w'.load (intToPtr (ptrToInt (z_malloc N N.sizeof_owned_keyexpr w).1)) =
          some (Cell.keyexpr (some k))) := by
  have hlt := z_malloc_lt N N.sizeof_owned_keyexpr w
  have hm := z_malloc_eq N N.sizeof_owned_keyexpr w hnn
  have hsnd := z_malloc_snd N N.sizeof_owned_keyexpr w hnn
  generalize (z_malloc N N.sizeof_owned_keyexpr w).1 = a at *
  rw [hsnd, zw_declare_ke_eval N session_ptr keyexpr_str w sl a hm hs hnn hfresh]
  cases hres : N.z_declare_keyexpr sl (N.z_keyexpr (some (cstr keyexpr_str.bytes)))
      (w.set a Cell.raw) with
  | none =>
    refine ⟨(((w.set a Cell.raw).log (Event.z_declare_keyexpr sl
      (N.z_keyexpr (some (cstr keyexpr_str.bytes))) none)).set a (Cell.keyexpr none)).print
        "Unable to declare key expression!\n", none, rfl, ?_, fun _ => ⟨rfl, ?_⟩, ?_⟩
    · simp
    · simp
    · intro k hk; exact absurd hk (by simp)
  | some k =>
    have hr : ptrToInt a ≠ 0 := fun h => hnn ((ptrToInt_eq_zero_iff a hlt).1 h)
    refine ⟨((w.set a Cell.raw).log (Event.z_declare_keyexpr sl
      (N.z_keyexpr (some (cstr keyexpr_str.bytes))) (some k))).set a (Cell.keyexpr (some k)),
      some k, rfl, ?_, fun h => absurd h (by simp), ?_⟩
    · simp
    · intro k2 hk2
      have hkk : k = k2 := Option.some.inj hk2
      subst hkk
      refine ⟨rfl, ?_, hr, ?_⟩
      · simp
      · rw [intToPtr_ptrToInt a hlt]
        exact load_set_same _ _ _ hnn (by simp)

/-- C6 amended, at a concrete input: the engine rejects the pattern demo on the
session at 8; `zw_declare_ke` prints its line and ends the process. -/
theorem zw_declare_ke_outcome_witness :
    sessionWorld.load (intToPtr 8) = some (Cell.session (some 1)) ∧
    (z_malloc (sampleNative true false 0 0 0) 4 sessionWorld).1 ≠ 0 ∧
    sessionWorld.heap (z_malloc (sampleNative true false 0 0 0) 4 sessionWorld).1 =
      Cell.unalloc ∧
    ∃ w' : World,
      zw_declare_ke (sampleNative true false 0 0 0) 8 ⟨[100, 101, 109, 111]⟩ sessionWorld =
        Outcome.exit (-1) w' ∧
      w'.out = ["Unable to declare key expression!\n"] ∧
      w'.trace = [Event.z_declare_keyexpr (some 1) ⟨0, [100, 101, 109, 111]⟩ none] :=
  ⟨by decide, by decide, by decide, by
    obtain ⟨w', res, hres, htr, hnone, _⟩ :=
      zw_declare_ke_outcome (sampleNative true false 0 0 0) 8 ⟨[100, 101, 109, 111]⟩
        sessionWorld (some 1) (by decide) (by decide) (by decide)
    have hn : res = none := hres
    subst hn
    exact ⟨w', (hnone rfl).1, (hnone rfl).2, htr⟩⟩

/-! ## Making a configuration -/

/-- C8, as stated, fails: for the empty locator `zw_default_config` allocates a
configuration, inserts the empty string under the connect key, and returns the
non-zero handle 8 of that configuration. -/
theorem zw_default_config_empty_locator :
    ∃ w', zw_default_config (sampleNative true true 0 0 0) ⟨[]⟩ emptyWorld =
        Outcome.ret 8 w' ∧
      w'.load (intToPtr 8) = some (Cell.config (some [(64, [])])) ∧
      w'.trace = [Event.zp_config_insert (some []) 64 []] :=
  ⟨_, rfl, by decide, rfl⟩

/-- Evaluation of `zw_default_config` when the allocator returns the block `a`. -/
theorem zw_default_config_eval (N : Native) (locator_str : StdString) (w : World) (a : Nat)
    (hm : z_malloc N N.sizeof_owned_config w = (a, w.set a Cell.raw)) (hnn : a ≠ 0) :
    zw_default_config N locator_str w =
      Outcome.ret (ptrToInt a) (configMadeWorld N w a locator_str.bytes) := by
  unfold zw_default_config configMadeWorld
  rw [hm]
  simp only [StdString.data]
  generalize N.z_config_default (w.set a Cell.raw) = d
  cases d <;> simp [World.store, World.load, World.set, World.log, hnn, z_string_make]

/-- C8, amended: `zw_default_config` does not reject any locator string, the empty
one included: whenever the allocation succeeds it stores the default
configuration, inserts the locator (as a C string) under the connect key exactly
once, and returns the non-zero handle of the stored configuration. -/
theorem zw_default_config_accepts (N : Native) (locator_str : StdString) (w : World)
    (hnn : (z_malloc N N.sizeof_owned_config w).1 ≠ 0) :
    ∃ r w' dflt,
      zw_default_config N locator_str w = Outcome.ret r w' ∧
      r ≠ 0 ∧
      r = ptrToInt (z_malloc N N.sizeof_owned_config w).1 ∧
      dflt = N.z_config_default (z_malloc N N.sizeof_owned_config w).2 ∧
      w'.trace = w.trace ++
        [Event.zp_config_insert dflt N.Z_CONFIG_CONNECT_KEY (cstr locator_str.bytes)] ∧
      w'.load (intToPtr r) = some (Cell.config (dflt.map fun cfg =>
        N.zp_config_insert cfg N.Z_CONFIG_CONNECT_KEY (cstr locator_str.bytes))) := by
  have hlt := z_malloc_lt N N.sizeof_owned_config w
  have hm := z_malloc_eq N N.sizeof_owned_config w hnn
  have hsnd := z_malloc_snd N N.sizeof_owned_config w hnn
  generalize (z_malloc N N.sizeof_owned_config w).1 = a at *
  have hr : ptrToInt a ≠ 0 := fun h => hnn ((ptrToInt_eq_zero_iff a hlt).1 h)
  rw [hsnd]
  refine ⟨ptrToInt a, configMadeWorld N w a locator_str.bytes, _,
    zw_default_config_eval N locator_str w a hm hnn, hr, rfl, rfl, ?_, ?_⟩
  · unfold configMadeWorld
    generalize N.z_config_default (w.set a Cell.raw) = d
    cases d <;> simp
  · rw [intToPtr_ptrToInt a hlt]
    unfold configMadeWorld
    generalize N.z_config_default (w.set a Cell.raw) = d
    cases d <;> simp [World.load, World.set, World.log, hnn]

/-- C8 amended, at a concrete input: the locator tcp in the empty world. -/
theorem zw_default_config_accepts_witness :
    (z_malloc (sampleNative true true 0 0 0) 4 emptyWorld).1 ≠ 0 ∧
    ∃ r w', zw_default_config (sampleNative true true 0 0 0) ⟨[116, 99, 112]⟩ emptyWorld =
        Outcome.ret r w' ∧ r ≠ 0 :=
  ⟨by decide,
    (zw_default_config_accepts (sampleNative true true 0 0 0) ⟨[116, 99, 112]⟩ emptyWorld
      (by decide)).imp
      fun _ h => h.imp fun _ h => by
        obtain ⟨_, h1, h2, _⟩ := h
        exact ⟨h1, h2⟩⟩

end ZenohWasm
